import Mathlib

/-!
Verification of the packaging manifest `setup.py` of the repository
yngvem/python-project-structure.

The manifest is a single Python module. Evaluating it performs two steps:

1. Lines 5-6: `with open("README.rst") as f: long_description = f.read()`.
   This read can fail (for example, when the file is absent), in which case
   evaluation of the module stops with an exception and `setup` is never
   called.
2. Lines 9-22: a single `setup(...)` call whose keyword arguments are
   string literals, list literals, dict literals, one boolean literal, the
   variable `long_description` bound in step 1, and the call
   `find_packages("src")`.

We embed this shallowly: the keyword-argument list of the `setup` call is a
concrete abstract-syntax list `setupKwargs`; an environment `Env` supplies
the filesystem contents and the behaviour of the external helper
`find_packages`; `evaluateManifest` mirrors module evaluation, producing
either an error or the list of fully evaluated keyword arguments that the
external packaging tool receives.
-/

/-- Expressions that occur as values of the keyword arguments of the
`setup` call in `setup.py` (lines 9-22). Every argument of the actual call
is one of these shapes. -/
inductive PyExpr where
  | strLit (s : String)
  | boolLit (b : Bool)
  | strListLit (xs : List String)
  | strDictLit (entries : List (String × String))
  | strListDictLit (entries : List (String × List String))
  | readFile (path : String)
  | findPackagesCall (root : String)
deriving DecidableEq, Repr

/-- Runtime values obtained by evaluating a `PyExpr`. -/
inductive PyVal where
  | str (s : String)
  | bool (b : Bool)
  | strList (xs : List String)
  | strDict (entries : List (String × String))
  | strListDict (entries : List (String × List String))
deriving DecidableEq, Repr

/-- The only runtime failure the module itself can produce: the
`open("README.rst")` on line 5 raising because the file cannot be read. -/
inductive EvalError where
  | fileNotFound (path : String)
deriving DecidableEq, Repr

/-- The environment in which the manifest is evaluated: the readable files
of the working directory (an association list from path to contents), and
the behaviour of the external `setuptools.find_packages`, which inspects
the directory given as its argument. -/
structure Env where
  files : List (String × String)
  findPackages : String → List String

/-- Association-list lookup used for both the filesystem and the evaluated
keyword-argument list. -/
def lookupKey {A : Type} (key : String) : List (String × A) → Option A
  | [] => none
  | (k, v) :: rest => if k = key then some v else lookupKey key rest

/-- Evaluate one keyword-argument expression in an environment. Only
`readFile` can fail. -/
def evalExpr (env : Env) : PyExpr → Except EvalError PyVal
  | PyExpr.strLit s => Except.ok (PyVal.str s)
  | PyExpr.boolLit b => Except.ok (PyVal.bool b)
  | PyExpr.strListLit xs => Except.ok (PyVal.strList xs)
  | PyExpr.strDictLit es => Except.ok (PyVal.strDict es)
  | PyExpr.strListDictLit es => Except.ok (PyVal.strListDict es)
  | PyExpr.readFile path =>
      match lookupKey path env.files with
      | some contents => Except.ok (PyVal.str contents)
      | none => Except.error (EvalError.fileNotFound path)
  | PyExpr.findPackagesCall root => Except.ok (PyVal.strList (env.findPackages root))

/-- Evaluate a keyword-argument list left to right, stopping at the first
failure, as Python does. -/
def evalKwargs (env : Env) : List (String × PyExpr) → Except EvalError (List (String × PyVal))
  | [] => Except.ok []
  | (k, e) :: rest =>
      match evalExpr env e with
      | Except.error err => Except.error err
      | Except.ok v =>
          match evalKwargs env rest with
          | Except.error err => Except.error err
          | Except.ok vs => Except.ok ((k, v) :: vs)

/-- The keyword arguments of the `setup` call, transcribed from
`setup.py` lines 9-22. The `long_description` argument is the variable
bound on line 6 to the contents of `README.rst`, so its value expression
is the file read; `packages` is the call `find_packages("src")` from
line 17. -/
def setupKwargs : List (String × PyExpr) :=
  [ ("name", PyExpr.strLit "<PARAM: package-name>"),
    ("version", PyExpr.strLit "<PARAM: api_version.major_version.revision_number>"),
    ("license", PyExpr.strLit "MIT"),
    ("description", PyExpr.strLit "<PARAM: Short description>"),
    ("long_description", PyExpr.readFile "README.rst"),
    ("author", PyExpr.strLit "<PARAM: Author Surname>"),
    ("author_email", PyExpr.strLit "<PARAM: author@email.here (optional)>"),
    ("packages", PyExpr.findPackagesCall "src"),
    ("package_dir", PyExpr.strDictLit [("", "src")]),
    ("include_package_data", PyExpr.boolLit true),
    ("install_requires", PyExpr.strListLit ["numpy", "scikit-learn"]),
    ("extras_require", PyExpr.strListDictLit
      [("test", ["pytest"]), ("dev", ["black", "pytest"])]) ]

/-- Evaluate the whole module. Line 5 reads `README.rst` first; if that
read fails, evaluation stops there and `setup` is never invoked.
Otherwise the keyword arguments are evaluated and handed to the external
packaging tool. The environment is fixed during one evaluation, so the
`readFile` inside `setupKwargs` yields the same string the variable
`long_description` was bound to. -/
def evaluateManifest (env : Env) : Except EvalError (List (String × PyVal)) :=
  match lookupKey "README.rst" env.files with
  | none => Except.error (EvalError.fileNotFound "README.rst")
  | some _ => evalKwargs env setupKwargs

/-- The fully evaluated keyword arguments when `README.rst` has contents
`c` and `find_packages("src")` returns `pkgs`. -/
def manifestVals (c : String) (pkgs : List String) : List (String × PyVal) :=
  [ ("name", PyVal.str "<PARAM: package-name>"),
    ("version", PyVal.str "<PARAM: api_version.major_version.revision_number>"),
    ("license", PyVal.str "MIT"),
    ("description", PyVal.str "<PARAM: Short description>"),
    ("long_description", PyVal.str c),
    ("author", PyVal.str "<PARAM: Author Surname>"),
    ("author_email", PyVal.str "<PARAM: author@email.here (optional)>"),
    ("packages", PyVal.strList pkgs),
    ("package_dir", PyVal.strDict [("", "src")]),
    ("include_package_data", PyVal.bool true),
    ("install_requires", PyVal.strList ["numpy", "scikit-learn"]),
    ("extras_require", PyVal.strListDict
      [("test", ["pytest"]), ("dev", ["black", "pytest"])]) ]

/-- A string is an unfilled template placeholder when it has the
`<PARAM: ...>` shape. -/
def isPlaceholder (s : String) : Bool :=
  List.isPrefixOf ("<PARAM:".data) s.data

/-- A keyword-argument expression is a string literal or a list literal. -/
def isStrOrListLit : PyExpr → Bool
  | PyExpr.strLit _ => true
  | PyExpr.strListLit _ => true
  | _ => false

/-- The keyword arguments other than the two that depend on the
environment (`long_description`, read from disk, and `packages`, produced
by `find_packages`). -/
def staticKwargs (args : List (String × PyVal)) : List (String × PyVal) :=
  args.filter (fun kv => kv.1 ≠ "long_description" && kv.1 ≠ "packages")

/-- Environment with `README.rst` present (contents `"A"`) and an empty
`src` tree. -/
def envA : Env := { files := [("README.rst", "A")], findPackages := fun _ => [] }

/-- Environment identical to `envA` except that `README.rst` holds `"B"`. -/
def envB : Env := { files := [("README.rst", "B")], findPackages := fun _ => [] }

/-- Environment with no readable files at all. -/
def envMissing : Env := { files := [], findPackages := fun _ => [] }

theorem evaluateManifest_ok (env : Env) (c : String)
    (h : lookupKey "README.rst" env.files = some c) :
    evaluateManifest env = Except.ok (manifestVals c (env.findPackages "src")) := by
  simp [evaluateManifest, h, setupKwargs, evalKwargs, evalExpr, manifestVals]

theorem evaluateManifest_err (env : Env)
    (h : lookupKey "README.rst" env.files = none) :
    evaluateManifest env = Except.error (EvalError.fileNotFound "README.rst") := by
  simp [evaluateManifest, h]

theorem evaluateManifest_ok_inv (env : Env) (args : List (String × PyVal))
    (h : evaluateManifest env = Except.ok args) :
    ∃ c, lookupKey "README.rst" env.files = some c ∧
      args = manifestVals c (env.findPackages "src") := by
  cases hf : lookupKey "README.rst" env.files with
  | none =>
      rw [evaluateManifest_err env hf] at h
      exact absurd h (by simp)
  | some c =>
      rw [evaluateManifest_ok env c hf] at h
      exact ⟨c, rfl, (Except.ok.inj h).symm⟩

/-- Claim C1 counterexample: it is false that evaluating the manifest
never raises an error from logic in this repository. In an environment
with no readable README.rst, line 5 of setup.py raises, so there is an
environment with no successful evaluation. -/
theorem manifest_can_error_cex :
    ¬ (∀ env : Env, ∃ args, evaluateManifest env = Except.ok args) := by
  intro h
  obtain ⟨args, ha⟩ := h envMissing
  rw [evaluateManifest_err envMissing rfl] at ha
  exact absurd ha (by simp)

/-- Claim C1 (amended): evaluating the manifest raises an error from
repository logic only when reading README.rst fails; in every environment
where README.rst is readable, evaluation succeeds and any remaining
failure could only surface in the external packaging tool. -/
theorem manifest_ok_when_readme_present (env : Env) (c : String)
    (h : lookupKey "README.rst" env.files = some c) :
    ∃ args, evaluateManifest env = Except.ok args :=
  ⟨manifestVals c (env.findPackages "src"), evaluateManifest_ok env c h⟩

/-- Witness for the amended claim C1 at the concrete environment envA. -/
theorem manifest_ok_when_readme_present_witness :
    lookupKey "README.rst" envA.files = some "A" ∧
    ∃ args, evaluateManifest envA = Except.ok args :=
  ⟨rfl, manifest_ok_when_readme_present envA "A" rfl⟩

/-- Claim C2 counterexample: it is false that any two evaluations of the
manifest pass identical metadata to setup. Environments envA and envB
differ only in the contents of README.rst, both evaluations succeed, and
the resulting keyword arguments differ (in long_description). -/
theorem metadata_env_dependent_cex :
    ¬ (∀ (env1 env2 : Env) (a1 a2 : List (String × PyVal)),
        evaluateManifest env1 = Except.ok a1 →
        evaluateManifest env2 = Except.ok a2 → a1 = a2) := by
  intro h
  have hAB := h envA envB (manifestVals "A" []) (manifestVals "B" []) rfl rfl
  exact absurd hAB (by decide)

/-- Claim C2 (amended): the metadata is static except for the two
environment-dependent values: for any two successful evaluations, all
keyword arguments other than long_description (read from README.rst) and
packages (produced by find_packages) are identical. -/
theorem static_metadata_identical (env1 env2 : Env)
    (a1 a2 : List (String × PyVal))
    (h1 : evaluateManifest env1 = Except.ok a1)
    (h2 : evaluateManifest env2 = Except.ok a2) :
    staticKwargs a1 = staticKwargs a2 := by
  obtain ⟨c1, hf1, ha1⟩ := evaluateManifest_ok_inv env1 a1 h1
  obtain ⟨c2, hf2, ha2⟩ := evaluateManifest_ok_inv env2 a2 h2
  subst ha1
  subst ha2
  rfl

/-- Witness for the amended claim C2 at the concrete environments envA
and envB. -/
theorem static_metadata_identical_witness :
    evaluateManifest envA = Except.ok (manifestVals "A" []) ∧
    evaluateManifest envB = Except.ok (manifestVals "B" []) ∧
    staticKwargs (manifestVals "A" []) = staticKwargs (manifestVals "B" []) :=
  ⟨rfl, rfl,
    static_metadata_identical envA envB (manifestVals "A" []) (manifestVals "B" []) rfl rfl⟩

/-- Claim C3: in every successful evaluation, the install_requires value
passed to setup is exactly the two-element list of numpy and
scikit-learn, in that order. -/
theorem install_requires_exact (env : Env) (args : List (String × PyVal))
    (h : evaluateManifest env = Except.ok args) :
    lookupKey "install_requires" args =
      some (PyVal.strList ["numpy", "scikit-learn"]) := by
  obtain ⟨c, hf, ha⟩ := evaluateManifest_ok_inv env args h
  subst ha
  rfl

/-- Witness for claim C3 at the concrete environment envA. -/
theorem install_requires_exact_witness :
    evaluateManifest envA = Except.ok (manifestVals "A" []) ∧
    lookupKey "install_requires" (manifestVals "A" []) =
      some (PyVal.strList ["numpy", "scikit-learn"]) :=
  ⟨rfl, install_requires_exact envA (manifestVals "A" []) rfl⟩

/-- Claim C4: in every successful evaluation, the extras_require value
passed to setup has exactly the keys test and dev, with test mapping to
the list with pytest and dev mapping to the list with black and pytest. -/
theorem extras_require_exact (env : Env) (args : List (String × PyVal))
    (h : evaluateManifest env = Except.ok args) :
    lookupKey "extras_require" args =
      some (PyVal.strListDict [("test", ["pytest"]), ("dev", ["black", "pytest"])]) := by
  obtain ⟨c, hf, ha⟩ := evaluateManifest_ok_inv env args h
  subst ha
  rfl

/-- Witness for claim C4 at the concrete environment envA. -/
theorem extras_require_exact_witness :
    evaluateManifest envA = Except.ok (manifestVals "A" []) ∧
    lookupKey "extras_require" (manifestVals "A" []) =
      some (PyVal.strListDict [("test", ["pytest"]), ("dev", ["black", "pytest"])]) :=
  ⟨rfl, extras_require_exact envA (manifestVals "A" []) rfl⟩

/-- Claim C5: the package discovery root of the manifest is src: the
packages argument is the call find_packages applied to src, the evaluated
package_dir maps the empty string to src, and in every successful
evaluation the packages value is whatever find_packages returns for the
src directory. -/
theorem package_discovery_root_src (env : Env) (args : List (String × PyVal))
    (h : evaluateManifest env = Except.ok args) :
    lookupKey "packages" setupKwargs = some (PyExpr.findPackagesCall "src") ∧
    lookupKey "package_dir" args = some (PyVal.strDict [("", "src")]) ∧
    lookupKey "packages" args = some (PyVal.strList (env.findPackages "src")) := by
  obtain ⟨c, hf, ha⟩ := evaluateManifest_ok_inv env args h
  subst ha
  exact ⟨rfl, rfl, rfl⟩

/-- Witness for claim C5 at the concrete environment envA. -/
theorem package_discovery_root_src_witness :
    evaluateManifest envA = Except.ok (manifestVals "A" []) ∧
    (lookupKey "packages" setupKwargs = some (PyExpr.findPackagesCall "src") ∧
     lookupKey "package_dir" (manifestVals "A" []) = some (PyVal.strDict [("", "src")]) ∧
     lookupKey "packages" (manifestVals "A" []) =
       some (PyVal.strList (envA.findPackages "src"))) :=
  ⟨rfl, package_discovery_root_src envA (manifestVals "A" []) rfl⟩

/-- Claim C6 counterexample: it is false that every one of the author,
license, and dependency-list values is an unfilled template placeholder.
The license value is the concrete string MIT, which is not a placeholder,
and the dependency lists hold concrete package names. -/
theorem placeholders_cex :
    lookupKey "license" setupKwargs = some (PyExpr.strLit "MIT") ∧
    isPlaceholder "MIT" = false := by decide

/-- Claim C6 (amended): the author values (author and author_email) are
unfilled template placeholders, while the license value is the concrete
string MIT and the dependency-list values are concrete lists of package
names, none of which is a placeholder. -/
theorem placeholder_fields :
    lookupKey "author" setupKwargs =
      some (PyExpr.strLit "<PARAM: Author Surname>") ∧
    isPlaceholder "<PARAM: Author Surname>" = true ∧
    lookupKey "author_email" setupKwargs =
      some (PyExpr.strLit "<PARAM: author@email.here (optional)>") ∧
    isPlaceholder "<PARAM: author@email.here (optional)>" = true ∧
    lookupKey "license" setupKwargs = some (PyExpr.strLit "MIT") ∧
    isPlaceholder "MIT" = false ∧
    lookupKey "install_requires" setupKwargs =
      some (PyExpr.strListLit ["numpy", "scikit-learn"]) ∧
    lookupKey "extras_require" setupKwargs =
      some (PyExpr.strListDictLit [("test", ["pytest"]), ("dev", ["black", "pytest"])]) ∧
    (["numpy", "scikit-learn", "pytest", "black"].all
      fun s => !(isPlaceholder s)) = true := by decide

/-- Claim C7 counterexample: it is false that every value in the manifest
is a string literal or a list literal. The long_description value is
computed by reading README.rst, which is neither. -/
theorem all_literals_cex :
    lookupKey "long_description" setupKwargs = some (PyExpr.readFile "README.rst") ∧
    isStrOrListLit (PyExpr.readFile "README.rst") = false := by decide

/-- Claim C7 (amended): the name, version, license, description, author,
and author_email values are string literals and install_requires is a
list literal, but the remaining values have other shapes:
long_description is computed by a file read, packages is computed by a
find_packages call, package_dir and extras_require are dict literals, and
include_package_data is a boolean literal. -/
theorem value_shapes :
    (setupKwargs.filter fun kv => isStrOrListLit kv.2).map Prod.fst =
      ["name", "version", "license", "description", "author", "author_email",
       "install_requires"] ∧
    lookupKey "long_description" setupKwargs = some (PyExpr.readFile "README.rst") ∧
    lookupKey "packages" setupKwargs = some (PyExpr.findPackagesCall "src") ∧
    lookupKey "package_dir" setupKwargs = some (PyExpr.strDictLit [("", "src")]) ∧
    lookupKey "include_package_data" setupKwargs = some (PyExpr.boolLit true) ∧
    lookupKey "extras_require" setupKwargs =
      some (PyExpr.strListDictLit [("test", ["pytest"]), ("dev", ["black", "pytest"])]) := by
  decide

/-- Claim C8: whenever evaluation reaches the setup call, the
long_description value passed to setup equals the entire contents of
README.rst as read from the environment at evaluation time. -/
theorem long_description_is_readme (env : Env) (c : String)
    (args : List (String × PyVal))
    (hf : lookupKey "README.rst" env.files = some c)
    (h : evaluateManifest env = Except.ok args) :
    lookupKey "long_description" args = some (PyVal.str c) := by
  rw [evaluateManifest_ok env c hf] at h
  rw [← Except.ok.inj h]
  rfl

/-- Witness for claim C8 at the concrete environment envA. -/
theorem long_description_is_readme_witness :
    lookupKey "README.rst" envA.files = some "A" ∧
    evaluateManifest envA = Except.ok (manifestVals "A" []) ∧
    lookupKey "long_description" (manifestVals "A" []) = some (PyVal.str "A") :=
  ⟨rfl, rfl, long_description_is_readme envA "A" (manifestVals "A" []) rfl rfl⟩

/-- Claim C9: if README.rst cannot be read, evaluation of the manifest
fails with the file error and no keyword arguments are ever produced for
the packaging tool, so no metadata at all is registered. -/
theorem readme_missing_aborts (env : Env)
    (h : lookupKey "README.rst" env.files = none) :
    evaluateManifest env = Except.error (EvalError.fileNotFound "README.rst") ∧
    ∀ args, evaluateManifest env ≠ Except.ok args := by
  refine ⟨evaluateManifest_err env h, ?_⟩
  intro args hc
  rw [evaluateManifest_err env h] at hc
  exact absurd hc (by simp)

/-- Witness for claim C9 at the concrete environment envMissing. -/
theorem readme_missing_aborts_witness :
    lookupKey "README.rst" envMissing.files = none ∧
    evaluateManifest envMissing = Except.error (EvalError.fileNotFound "README.rst") :=
  ⟨rfl, (readme_missing_aborts envMissing rfl).1⟩

/-- Claim C10: in every successful evaluation, the manifest passes
include_package_data with the value True to setup. -/
theorem include_package_data_true (env : Env) (args : List (String × PyVal))
    (h : evaluateManifest env = Except.ok args) :
    lookupKey "include_package_data" args = some (PyVal.bool true) := by
  obtain ⟨c, hf, ha⟩ := evaluateManifest_ok_inv env args h
  subst ha
  rfl

/-- Witness for claim C10 at the concrete environment envA. -/
theorem include_package_data_true_witness :
    evaluateManifest envA = Except.ok (manifestVals "A" []) ∧
    lookupKey "include_package_data" (manifestVals "A" []) = some (PyVal.bool true) :=
  ⟨rfl, include_package_data_true envA (manifestVals "A" []) rfl⟩
